import Mathlib

set_option autoImplicit false

/-!
Verification development for the audio-analysis-platform server.

Shallow embedding of the Python sources:
* `src/server/services/storage.py`    — telemetry buffer (recent-event deque,
  SQLite pending buffer, batch flush, latest-data query)
* `src/server/services/websocket_manager.py` — connection registry, binary
  forwarder, dashboard broadcast
* `src/server/routes/websockets.py`   — frame routing for the combined
  device/audio channel `/ws` and the legacy audio channel `/ws-microphone`
* `src/server/app.py`                 — startup actions

State is passed explicitly; spawned asyncio tasks are recorded as data; the
batch writes issued to SQLite are recorded as a list of batch arguments.
-/

namespace AudioHub

/-! ## List helpers: Python semantics -/

/-- Last `n` elements of a list (everything if `n ≥ length`). -/
def takeRight {α : Type} (n : Nat) (l : List α) : List α :=
  l.drop (l.length - n)

/-- Python slice `l[start:]`.  A negative `start` counts from the end and
clamps at the front; a non-negative `start` drops that many elements.  Note
`l[0:]` (and hence `l[-0:]`) is the whole list. -/
def pySliceFrom {α : Type} (l : List α) (start : Int) : List α :=
  if start < 0 then l.drop (l.length - (-start).toNat)
  else l.drop start.toNat

/-- `collections.deque(maxlen := N)` append: add at the right, evicting from
the left when over capacity; the result is the last `N` of `l ++ [d]`. -/
def pushBounded {α : Type} (N : Nat) (l : List α) (d : α) : List α :=
  takeRight N (l ++ [d])

theorem takeRight_of_length_le {α : Type} {n : Nat} {l : List α}
    (h : l.length ≤ n) : takeRight n l = l := by
  unfold takeRight
  rw [Nat.sub_eq_zero_of_le h, List.drop_zero]

theorem length_takeRight {α : Type} (n : Nat) (l : List α) :
    (takeRight n l).length = min n l.length := by
  unfold takeRight
  rw [List.length_drop]
  omega

theorem takeRight_eq_reverse_take {α : Type} (n : Nat) (l : List α) :
    takeRight n l = (l.reverse.take n).reverse := by
  have h := List.rtake_eq_reverse_take_reverse (l := l) (n := n)
  simpa [List.rtake, takeRight] using h

/-- Re-truncating an already truncated list before more data gives the same
last-`n` window as truncating the whole stream at the end. -/
theorem takeRight_append_takeRight {α : Type} (n : Nat) (l m : List α) :
    takeRight n (takeRight n l ++ m) = takeRight n (l ++ m) := by
  rw [takeRight_eq_reverse_take, takeRight_eq_reverse_take n (l ++ m),
    takeRight_eq_reverse_take n l]
  rw [List.reverse_append, List.reverse_reverse, List.reverse_append]
  congr 1
  rw [List.take_append_eq_append_take, List.take_append_eq_append_take, List.take_take]
  rw [Nat.min_eq_left (Nat.sub_le _ _)]

/-- Folding bounded pushes over a stream, starting from a truncated prefix,
is truncation of the whole stream. -/
theorem foldl_pushBounded {α : Type} (N : Nat) (es : List α) (pre : List α) :
    es.foldl (pushBounded N) (takeRight N pre) = takeRight N (pre ++ es) := by
  induction es generalizing pre with
  | nil => simp
  | cons e es ih =>
      rw [List.foldl_cons]
      have hstep : pushBounded N (takeRight N pre) e = takeRight N (pre ++ [e]) := by
        unfold pushBounded
        exact takeRight_append_takeRight N pre [e]
      rw [hstep, ih (pre ++ [e])]
      simp

theorem foldl_pushBounded_nil {α : Type} (N : Nat) (es : List α) :
    es.foldl (pushBounded N) [] = takeRight N es := by
  have h : ([] : List α) = takeRight N [] := by simp [takeRight]
  rw [h, foldl_pushBounded N es []]
  simp

/-! ## Storage service (`src/server/services/storage.py`)

`StorageState` carries the module-level mutable state of `storage.py` plus an
observation log: `batches` records the argument of every batch write issued to
`save_sensor_data_batch`, and `flushTasksSpawned` counts the
`asyncio.create_task(flush_sqlite_buffer())` calls made by `add_sensor_data`.
`N` is `LATEST_DATA_MAX_SIZE` and `T` is `SQLITE_BUFFER_SIZE` (both come from
`config/settings.py`, kept as parameters). -/

structure StorageState (E : Type) where
  sqlite_buffer : List E
  latest_data : List E
  batches : List (List E)
  flushTasksSpawned : Nat
deriving DecidableEq, Repr

def emptyStorage (E : Type) : StorageState E :=
  { sqlite_buffer := [], latest_data := [], batches := [], flushTasksSpawned := 0 }

/-- `database/db.py` `save_sensor_data_batch`: returns immediately on an empty
list, otherwise performs one batch insert (recorded in `batches`). -/
def save_sensor_data_batch {E : Type} (batches : List (List E)) (data_list : List E) :
    List (List E) :=
  if data_list.isEmpty then batches else batches ++ [data_list]

/-- First half of `flush_sqlite_buffer`: the early return on an empty buffer,
then `buffer_copy = sqlite_buffer.copy(); sqlite_buffer.clear()`.  No `await`
separates the copy from the clear, so this step is atomic under cooperative
scheduling.  Returns the captured batch (none if the buffer was empty). -/
def flushCapture {E : Type} (st : StorageState E) : Option (List E) × StorageState E :=
  if st.sqlite_buffer.isEmpty then (none, st)
  else (some st.sqlite_buffer, { st with sqlite_buffer := [] })

/-- Second half of `flush_sqlite_buffer`: `await save_sensor_data_batch(buffer_copy)`. -/
def flushComplete {E : Type} (captured : Option (List E)) (st : StorageState E) :
    StorageState E :=
  match captured with
  | none => st
  | some b => { st with batches := save_sensor_data_batch st.batches b }

/-- `flush_sqlite_buffer` run without interleaving: capture then save. -/
def flush_sqlite_buffer {E : Type} (st : StorageState E) : StorageState E :=
  let (cap, st1) := flushCapture st
  flushComplete cap st1

/-- `add_sensor_data`: append to the bounded `latest_data` deque, append to
`sqlite_buffer`, and spawn a flush task when the buffer reaches
`SQLITE_BUFFER_SIZE` (`T`). -/
def add_sensor_data {E : Type} (N T : Nat) (st : StorageState E) (d : E) : StorageState E :=
  let latest2 := pushBounded N st.latest_data d
  let buf2 := st.sqlite_buffer ++ [d]
  { st with
    latest_data := latest2
    sqlite_buffer := buf2
    flushTasksSpawned :=
      if T ≤ buf2.length then st.flushTasksSpawned + 1 else st.flushTasksSpawned }

/-- `flush_sqlite_buffer` interleaved with concurrent `add_sensor_data` calls:
the capture-and-clear is atomic, the adds in `during` land while the batch
write is awaited, and the write then completes. -/
def flushWithAdds {E : Type} (N T : Nat) (st : StorageState E) (during : List E) :
    StorageState E :=
  let (cap, st1) := flushCapture st
  let st2 := during.foldl (add_sensor_data N T) st1
  flushComplete cap st2

/-- `get_latest_data`: `list(latest_data)[-count:]`.  Builds a copy, so the
deque itself is never mutated; the embedding is a pure function of the state. -/
def get_latest_data {E : Type} (st : StorageState E) (count : Int) : List E :=
  pySliceFrom st.latest_data (-count)

/-! ## Startup (`src/server/app.py`)

`startup_event` awaits `init_db()` and prints a banner; it schedules no
background task.  The constructor `spawnPeriodicFlush` exists in the action
alphabet so that its absence from the startup list is expressible. -/

inductive StartupAction where
  | initDb
  | printBanner
  | spawnPeriodicFlush
deriving DecidableEq

def startup_event : List StartupAction :=
  [StartupAction.initDb, StartupAction.printBanner]

/-! ### Storage fold lemmas -/

theorem foldl_add_latest {E : Type} (N T : Nat) (es : List E) (st : StorageState E) :
    (es.foldl (add_sensor_data N T) st).latest_data =
      es.foldl (pushBounded N) st.latest_data := by
  induction es generalizing st with
  | nil => rfl
  | cons e es ih => simp [add_sensor_data, ih]

theorem foldl_add_buffer {E : Type} (N T : Nat) (es : List E) (st : StorageState E) :
    (es.foldl (add_sensor_data N T) st).sqlite_buffer = st.sqlite_buffer ++ es := by
  induction es generalizing st with
  | nil => simp
  | cons e es ih => simp [add_sensor_data, ih]

theorem foldl_add_batches {E : Type} (N T : Nat) (es : List E) (st : StorageState E) :
    (es.foldl (add_sensor_data N T) st).batches = st.batches := by
  induction es generalizing st with
  | nil => rfl
  | cons e es ih => simp [add_sensor_data, ih]

theorem foldl_add_tasks_below {E : Type} (N T : Nat) (es : List E) (st : StorageState E)
    (h : st.sqlite_buffer.length + es.length < T) :
    (es.foldl (add_sensor_data N T) st).flushTasksSpawned = st.flushTasksSpawned := by
  induction es generalizing st with
  | nil => rfl
  | cons e es ih =>
      rw [List.foldl_cons]
      have hlen : (add_sensor_data N T st e).sqlite_buffer.length =
          st.sqlite_buffer.length + 1 := by
        simp [add_sensor_data]
      have hnot : ¬ T ≤ st.sqlite_buffer.length + 1 := by
        simp at h; omega
      have htask : (add_sensor_data N T st e).flushTasksSpawned = st.flushTasksSpawned := by
        simp [add_sensor_data, hnot]
      have hrec := ih (add_sensor_data N T st e) (by rw [hlen]; simp at h ⊢; omega)
      rw [hrec, htask]

/-! ## Connection manager (`src/server/services/websocket_manager.py`) -/

/-- A websocket connection handle, identified by a number. -/
structure Conn where
  id : Nat
deriving DecidableEq, Repr

/-- Python exceptions relevant to the embedded fragments. -/
inductive PyError where
  | attributeError
  | jsonDecodeError
  | sendFailed
deriving DecidableEq, Repr

/-- The raw `websocket.send_bytes` call: succeeds or raises, according to the
transport oracle `ok`. -/
def sendBytesPrim (ok : Conn → List Nat → Bool) (c : Conn) (data : List Nat) :
    Except PyError Unit :=
  if ok c data then Except.ok () else Except.error PyError.sendFailed

/-- `send_binary_to_arduino`: returns `False` when no Arduino is registered;
otherwise attempts the send, returning `True` on success and `False` (the
bare `except` — never re-raising) on failure.  The second component records
the frames actually handed to `send_bytes`, with their target connection. -/
def send_binary_to_arduino (arduino_connection : Option Conn)
    (ok : Conn → List Nat → Bool) (data : List Nat) :
    Except PyError Bool × List (Conn × List Nat) :=
  match arduino_connection with
  | none => (Except.ok false, [])
  | some c =>
      match sendBytesPrim ok c data with
      | Except.ok _ => (Except.ok true, [(c, data)])
      | Except.error _ => (Except.ok false, [(c, data)])

/-! ## Binary frame handling on the two ingest endpoints
(`src/server/routes/websockets.py`) -/

/-- Little-endian byte decoding (as done by `struct.unpack('<...')`). -/
def leNat (bytes : List Nat) : Nat :=
  bytes.foldr (fun b acc => b + 256 * acc) 0

/-- The dashboard summary event built from a binary frame header (the
`data_json` dict minus the timestamp/client/source strings). -/
structure SummaryEvent where
  rate : Nat
  chunk_size : Nat
  audio_length : Nat
  packet_count : Option Nat
deriving DecidableEq, Repr

/-- `struct.unpack('<BIHB', binary_data[:8])`: message type, uint32 timestamp,
uint16 rate/100, uint8 chunk/64, all little-endian. -/
def parseHeader (b : List Nat) : Nat × Nat × Nat × Nat :=
  (b.headD 0, leNat ((b.drop 1).take 4), leNat ((b.drop 5).take 2), (b.drop 7).headD 0)

/-- Observable effects of one inbound binary frame. -/
structure BinEffects where
  forwardCalled : Bool
  attempts : List (Conn × List Nat)
  stored : Option SummaryEvent
deriving DecidableEq, Repr

/-- Binary branch of `websocket_arduino` (`/ws`, lines 67–103): frames shorter
than 8 bytes fall through the length guard and are dropped entirely; type-0x01
frames of full length are forwarded and produce a dashboard summary. -/
def handleBinaryArduino (device : Option Conn) (ok : Conn → List Nat → Bool)
    (b : List Nat) : BinEffects :=
  if 8 ≤ b.length then
    let hdr := parseHeader b
    if hdr.1 = 0x01 then
      let sent := send_binary_to_arduino device ok b
      { forwardCalled := true
        attempts := sent.2
        stored := some
          { rate := hdr.2.2.1 * 100
            chunk_size := hdr.2.2.2 * 64
            audio_length := (b.drop 8).length
            packet_count := none } }
    else { forwardCalled := false, attempts := [], stored := none }
  else { forwardCalled := false, attempts := [], stored := none }

/-- Binary branch of `websocket_microphone` (`/ws-microphone`, lines 228–259):
the frame is forwarded to the Arduino unconditionally, before any length
check; the 8-byte header guard only gates the dashboard summary, which is
emitted every 10th packet.  `count` is `binary_count` after its increment. -/
def handleBinaryMicrophone (device : Option Conn) (ok : Conn → List Nat → Bool)
    (b : List Nat) (count : Nat) : BinEffects :=
  let sent := send_binary_to_arduino device ok b
  if 8 ≤ b.length then
    let hdr := parseHeader b
    { forwardCalled := true
      attempts := sent.2
      stored :=
        if count % 10 = 0 then
          some
            { rate := hdr.2.2.1 * 100
              chunk_size := hdr.2.2.2 * 64
              audio_length := b.length - 8
              packet_count := some count }
        else none }
  else { forwardCalled := true, attempts := sent.2, stored := none }

/-! ## Dashboard broadcast (`broadcast_to_dashboards`, websocket_manager.py 39–49)

The source iterates directly over the module-level set `active_connections`
(`for connection in active_connections`) with an `await` inside the loop body.
The model makes the suspension points explicit: after each send attempt a
batch of concurrent registry mutations may run.  As in CPython, the set
iterator detects a size change at its next step and raises
`RuntimeError("Set changed size during iteration")`; the set is modelled as a
duplicate-free list to give the iteration a concrete order. -/

inductive SetMutation where
  | add (c : Conn)
  | remove (c : Conn)
deriving DecidableEq, Repr

def applyMutation (s : List Conn) : SetMutation → List Conn
  | SetMutation.add c => if c ∈ s then s else s ++ [c]
  | SetMutation.remove c => s.erase c

def applyMutations (s : List Conn) (ms : List SetMutation) : List Conn :=
  ms.foldl applyMutation s

inductive BroadcastResult where
  | completed (sent : List Conn) (finalSet : List Conn)
  | iterRuntimeError (sent : List Conn)
deriving DecidableEq, Repr

/-- One send loop of `broadcast_to_dashboards`.  `n0` is the set size at
iterator creation; `rest` the connections the iterator has yet to yield;
`live` the current (mutable) set; `sched` the mutations run at each
suspension point; `sent` the send attempts issued so far; `disconnected` the
connections whose send raised.  Each `next()` call first compares the live
size to `n0` (raising `RuntimeError` on mismatch), and the loop ends with
`active_connections.difference_update(disconnected)`. -/
def broadcastLoop (sendOk : Conn → Bool) (n0 : Nat) :
    List Conn → List Conn → List (List SetMutation) → List Conn → List Conn →
      BroadcastResult
  | rest, live, sched, sent, disconnected =>
    if live.length ≠ n0 then BroadcastResult.iterRuntimeError sent
    else
      match rest with
      | [] =>
          BroadcastResult.completed sent
            (live.filter (fun c => ! disconnected.contains c))
      | c :: rest2 =>
          let disc2 := if sendOk c then disconnected else disconnected ++ [c]
          let live2 := applyMutations live (sched.headD [])
          broadcastLoop sendOk n0 rest2 live2 sched.tail (sent ++ [c]) disc2

/-- `broadcast_to_dashboards` under a schedule of concurrent mutations. -/
def broadcast_to_dashboards (active : List Conn) (sendOk : Conn → Bool)
    (sched : List (List SetMutation)) : BroadcastResult :=
  broadcastLoop sendOk active.length active active sched [] []

def sentList : BroadcastResult → List Conn
  | BroadcastResult.completed s _ => s
  | BroadcastResult.iterRuntimeError s => s

def isIterError : BroadcastResult → Bool
  | BroadcastResult.completed _ _ => false
  | BroadcastResult.iterRuntimeError _ => true

theorem broadcastLoop_no_mutation (sendOk : Conn → Bool) (n0 : Nat)
    (rest : List Conn) (live sent disconnected : List Conn)
    (h : live.length = n0) :
    sentList (broadcastLoop sendOk n0 rest live [] sent disconnected) = sent ++ rest ∧
    isIterError (broadcastLoop sendOk n0 rest live [] sent disconnected) = false := by
  induction rest generalizing sent disconnected with
  | nil =>
      rw [broadcastLoop]
      simp [h, sentList, isIterError]
  | cons c rest2 ih =>
      rw [broadcastLoop]
      simp only [h, ne_eq, not_true_eq_false, if_neg, ite_false]
      have := ih (sent ++ [c]) (if sendOk c then disconnected else disconnected ++ [c])
      simp only [applyMutations, List.headD, List.foldl_nil, List.tail] at this ⊢
      rcases this with ⟨h1, h2⟩
      constructor
      · rw [h1]; simp
      · exact h2

/-! ## JSON values and the text branch of `websocket_arduino`
(`src/server/routes/websockets.py`, lines 112–156)

`json.loads` may return any JSON value, not only an object.  Python dicts are
modelled as insertion-ordered association lists with first-match lookup and
in-place update. -/

inductive Json where
  | null
  | bool (b : Bool)
  | num (n : Int)
  | str (s : String)
  | arr (elems : List Json)
  | obj (fields : List (String × Json))
deriving Repr

/-- Python `==` between a JSON value and a string literal: true exactly when
the value is that string. -/
def Json.eqStr (j : Json) (s : String) : Bool :=
  match j with
  | Json.str t => t = s
  | _ => false

/-- Python `==` between `dict.get(...)` (which yields `None` when the key is
missing) and a string literal. -/
def optEqStr (o : Option Json) (s : String) : Bool :=
  match o with
  | some j => j.eqStr s
  | none => false

def lookupField : List (String × Json) → String → Option Json
  | [], _ => none
  | (k, v) :: rest, key => if k = key then some v else lookupField rest key

def setField : List (String × Json) → String → Json → List (String × Json)
  | [], key, v => [(key, v)]
  | (k, w) :: rest, key, v =>
      if k = key then (k, v) :: rest else (k, w) :: setField rest key v

/-- Python attribute access `j.get(key)`: only a dict has `.get`; on any other
JSON value (list, str, int, bool, None) it raises `AttributeError`, which the
handler's `except json.JSONDecodeError` does not catch. -/
def pyGet (j : Json) (key : String) : Except PyError (Option Json) :=
  match j with
  | Json.obj fields => Except.ok (lookupField fields key)
  | _ => Except.error PyError.attributeError

/-- How the text-frame handler left the session: `continue` after an
audio-data request, normal processing, a logged drop on undecodable JSON, or
an uncaught exception that terminates the session. -/
inductive TextOutcome where
  | requestHandled
  | processed
  | droppedMalformedJson
  | raised (e : PyError)
deriving DecidableEq, Repr

structure TextResult where
  outcome : TextOutcome
  is_arduino_connection : Option Bool
  arduino_connection : Option Conn
  stored : Option Json
deriving Repr

/-- Text branch of `websocket_arduino`.  `decoded` is the result of
`json.loads` (`none` = `JSONDecodeError`); `self` is this session's socket;
`ts` and `client` are the server timestamp and remote host injected into the
payload; `isArd`/`reg` are `is_arduino_connection` and the registry's
`arduino_connection` before the frame.  Mirrors the source line by line:
the `request == "audio_data"` early `continue`, the timestamp/client
assignments, the `source` classification (a `laptop_microphone` source sets
`is_arduino_connection = False` and never registers; anything else is tagged
`arduino` and, on a first classification, registers this socket), then
`add_sensor_data`/broadcast of the final dict. -/
def handleTextArduino (self : Conn) (ts client : String) (decoded : Option Json)
    (isArd : Option Bool) (reg : Option Conn) : TextResult :=
  match decoded with
  | none =>
      { outcome := TextOutcome.droppedMalformedJson
        is_arduino_connection := isArd, arduino_connection := reg, stored := none }
  | some j =>
      match pyGet j "request" with
      | Except.error e =>
          { outcome := TextOutcome.raised e
            is_arduino_connection := isArd, arduino_connection := reg, stored := none }
      | Except.ok req =>
          if optEqStr req "audio_data" then
            { outcome := TextOutcome.requestHandled
              is_arduino_connection := isArd, arduino_connection := reg, stored := none }
          else
            match j with
            | Json.obj fields =>
                let fields1 := setField fields "timestamp" (Json.str ts)
                let fields2 := setField fields1 "client" (Json.str client)
                match lookupField fields2 "source" with
                | some src =>
                    if src.eqStr "laptop_microphone" then
                      let fields3 := setField fields2 "source" (Json.str "laptop_microphone")
                      { outcome := TextOutcome.processed
                        is_arduino_connection := some false
                        arduino_connection := reg
                        stored := some (Json.obj fields3) }
                    else
                      let fields3 := setField fields2 "source" (Json.str "arduino")
                      if isArd = none then
                        { outcome := TextOutcome.processed
                          is_arduino_connection := some true
                          arduino_connection := some self
                          stored := some (Json.obj fields3) }
                      else
                        { outcome := TextOutcome.processed
                          is_arduino_connection := isArd
                          arduino_connection := reg
                          stored := some (Json.obj fields3) }
                | none =>
                    let fields3 := setField fields2 "source" (Json.str "arduino")
                    if isArd = none then
                      { outcome := TextOutcome.processed
                        is_arduino_connection := some true
                        arduino_connection := some self
                        stored := some (Json.obj fields3) }
                    else
                      { outcome := TextOutcome.processed
                        is_arduino_connection := isArd
                        arduino_connection := reg
                        stored := some (Json.obj fields3) }
            | _ =>
                { outcome := TextOutcome.raised PyError.attributeError
                  is_arduino_connection := isArd, arduino_connection := reg, stored := none }

theorem lookupField_setField_ne (l : List (String × Json)) (k key : String) (v : Json)
    (h : key ≠ k) : lookupField (setField l k v) key = lookupField l key := by
  have hne : k ≠ key := fun hh => h hh.symm
  induction l with
  | nil => simp [setField, lookupField, hne]
  | cons p rest ih =>
      obtain ⟨pk, pv⟩ := p
      by_cases hk : pk = k
      · subst hk
        simp [setField, lookupField, hne]
      · simp [setField, hk, lookupField, ih]

/-! ## Session termination on the combined channel
(`websocket_arduino`, lines 158–179)

Every exit runs the inner `finally` (which de-registers only if this session
classified itself as the Arduino); an exit that reaches one of the three
outer `except` handlers (`WebSocketDisconnect`, `RuntimeError`, `Exception`)
then calls `set_arduino_connection(None)` unconditionally. -/

inductive SessionExit where
  | graceful
  | wsDisconnect
  | runtimeError
  | otherException
deriving DecidableEq, Repr

/-- Value of the registry's `arduino_connection` after the `/ws` session for
`self` ends: the inner `finally` clears it only when this session holds the
`is_arduino_connection = True` flag; any of the three exception handlers then
clears it unconditionally. -/
def sessionCleanup (exitPath : SessionExit) (is_arduino_connection : Option Bool)
    (reg : Option Conn) : Option Conn :=
  let afterFinally := if is_arduino_connection = some true then none else reg
  match exitPath with
  | SessionExit.graceful => afterFinally
  | SessionExit.wsDisconnect => none
  | SessionExit.runtimeError => none
  | SessionExit.otherException => none

/-! ## Claims -/

/-- C5: for every sequence of events passed to `add_sensor_data`, the
recent-event buffer never exceeds the capacity `N`, and after the whole
sequence it holds exactly the last `min(total_events, N)` events in receipt
order (universally in the sequence, so every prefix — every intermediate
state — satisfies the bound as well). -/
theorem latest_buffer_last_min (E : Type) (N T : Nat) (es : List E) :
    ((es.foldl (add_sensor_data N T) (emptyStorage E)).latest_data).length ≤ N ∧
    ((es.foldl (add_sensor_data N T) (emptyStorage E)).latest_data).length
      = min es.length N ∧
    (es.foldl (add_sensor_data N T) (emptyStorage E)).latest_data
      = es.drop (es.length - N) := by
  have h := foldl_add_latest N T es (emptyStorage E)
  rw [show (emptyStorage E).latest_data = [] from rfl] at h
  rw [h, foldl_pushBounded_nil]
  refine ⟨?_, ?_, rfl⟩
  · rw [length_takeRight]; omega
  · rw [length_takeRight]; omega

/-- C6: `send_binary_to_arduino` returns `False` and raises nothing when no
device is registered; with a registered device it hands exactly the
unmodified byte sequence to that device's `send_bytes` and returns `True`
iff the send succeeded, returning `False` (never propagating an error) on a
failed send. -/
theorem send_binary_contract (arduino : Option Conn) (ok : Conn → List Nat → Bool)
    (data : List Nat) :
    match arduino with
    | none => send_binary_to_arduino arduino ok data = (Except.ok false, [])
    | some c =>
        send_binary_to_arduino arduino ok data
          = (Except.ok (ok c data), [(c, data)]) := by
  cases arduino with
  | none => rfl
  | some c =>
      simp only [send_binary_to_arduino, sendBytesPrim]
      cases h : ok c data <;> simp [h]

/-- C9: on the combined channel, every session termination path that exits
through one of the three exception handlers clears the device registration
unconditionally — whatever role this session held and whoever is currently
registered, including a newer device connection that superseded this one. -/
theorem exception_exit_clears_registration (path : SessionExit)
    (isArd : Option Bool) (reg : Option Conn) (h : path ≠ SessionExit.graceful) :
    sessionCleanup path isArd reg = none := by
  cases path with
  | graceful => exact absurd rfl h
  | wsDisconnect => rfl
  | runtimeError => rfl
  | otherException => rfl

/-- C9 witness: connection A (which had registered itself, so its
`is_arduino_connection` flag is `True`) dies by transport disconnect after
connection B (id 1) superseded it in the registry; A's exit deregisters B. -/
theorem exception_exit_clears_registration_witness :
    sessionCleanup SessionExit.wsDisconnect (some true) (some ⟨1⟩) = none :=
  exception_exit_clears_registration SessionExit.wsDisconnect (some true) (some ⟨1⟩)
    (by decide)

/-- C10: a text frame decoding to a non-object JSON value makes
`data_json.get("request")` raise `AttributeError`; the inner handler catches
only `JSONDecodeError`, so the outcome is a raised exception (ending the
session through the outer handler), not the logged drop reserved for
malformed JSON. -/
theorem non_object_json_raises (self : Conn) (ts client : String) (j : Json)
    (isArd : Option Bool) (reg : Option Conn)
    (h : ∀ fields, j ≠ Json.obj fields) :
    pyGet j "request" = Except.error PyError.attributeError ∧
    (handleTextArduino self ts client (some j) isArd reg).outcome
      = TextOutcome.raised PyError.attributeError ∧
    (handleTextArduino self ts client (some j) isArd reg).outcome
      ≠ TextOutcome.droppedMalformedJson := by
  have hp : pyGet j "request" = Except.error PyError.attributeError := by
    cases j with
    | obj fields => exact absurd rfl (h fields)
    | null => rfl
    | bool b => rfl
    | num n => rfl
    | str s => rfl
    | arr xs => rfl
  have ho : (handleTextArduino self ts client (some j) isArd reg).outcome
      = TextOutcome.raised PyError.attributeError := by
    simp only [handleTextArduino, hp]
  exact ⟨hp, ho, by rw [ho]; simp⟩

/-- C10 witness: the frame text `5` decodes to a JSON number; the session is
terminated by an uncaught `AttributeError`, not continued. -/
theorem non_object_json_raises_witness :
    pyGet (Json.num 5) "request" = Except.error PyError.attributeError ∧
    (handleTextArduino ⟨0⟩ "t" "c" (some (Json.num 5)) none none).outcome
      = TextOutcome.raised PyError.attributeError ∧
    (handleTextArduino ⟨0⟩ "t" "c" (some (Json.num 5)) none none).outcome
      ≠ TextOutcome.droppedMalformedJson :=
  non_object_json_raises ⟨0⟩ "t" "c" (Json.num 5) none none
    (fun _ hh => Json.noConfusion hh)

/-- C7 counterexample: with two buffered events, `get_latest_data 0` — the
slice `list(latest_data)[-0:]` in the source, where `-0` is `0` — returns the
entire buffer, two elements, more than the requested zero. -/
theorem get_latest_zero_counterexample :
    get_latest_data (StorageState.mk [] [7, 8] [] 0 : StorageState Nat) 0 = [7, 8] ∧
    ¬ ((get_latest_data (StorageState.mk [] [7, 8] [] 0 : StorageState Nat) 0).length
        ≤ 0) := by
  decide

/-- C7 (amended): for every positive `n`, `get_latest_data` returns exactly
the `min n (buffer length)` most recent events in order, hence at most `n`;
it is a pure function of the buffer (the source copies the deque into a
fresh list and never mutates it).  At `n = 0` the slice instead returns the
whole buffer. -/
theorem get_latest_pos (E : Type) (st : StorageState E) (n : Nat) (h : 1 ≤ n) :
    get_latest_data st (n : Int)
      = st.latest_data.drop (st.latest_data.length - n) ∧
    (get_latest_data st (n : Int)).length = min n st.latest_data.length ∧
    (get_latest_data st (n : Int)).length ≤ n := by
  have hneg : (-(n : Int)) < 0 := by
    have hn : (0 : Int) < (n : Int) := by exact_mod_cast h
    omega
  unfold get_latest_data pySliceFrom
  rw [if_pos hneg, neg_neg, Int.toNat_natCast]
  exact ⟨rfl, by rw [List.length_drop]; omega, by rw [List.length_drop]; omega⟩

/-- C7 witness: asking for the 2 most recent of 3 buffered events. -/
theorem get_latest_pos_witness :
    get_latest_data (StorageState.mk [] [3, 4, 5] [] 0 : StorageState Nat)
        ((2 : Nat) : Int)
      = (StorageState.mk ([] : List Nat) [3, 4, 5] [] 0).latest_data.drop
          ((StorageState.mk ([] : List Nat) [3, 4, 5] [] 0).latest_data.length - 2) ∧
    (get_latest_data (StorageState.mk [] [3, 4, 5] [] 0 : StorageState Nat)
        ((2 : Nat) : Int)).length
      = min 2 (StorageState.mk ([] : List Nat) [3, 4, 5] [] 0).latest_data.length ∧
    (get_latest_data (StorageState.mk [] [3, 4, 5] [] 0 : StorageState Nat)
        ((2 : Nat) : Int)).length ≤ 2 :=
  get_latest_pos Nat (StorageState.mk [] [3, 4, 5] [] 0) 2 (by decide)

/-- C1 counterexample: flushing an empty pending queue issues no batch-write
call at all — the source returns before calling `save_sensor_data_batch` —
rather than exactly one call carrying the zero pending events. -/
theorem flush_empty_counterexample :
    ¬ ((flushWithAdds 5 10 (emptyStorage Nat) []).batches.length = 1) := by
  decide

/-- C1 (amended, for a non-empty queue): flushing a pending queue of P ≥ 1
events issues exactly one batch write containing exactly those P events in
order; events added during the flush land in the freshly emptied queue — they
are absent from the written batch and form exactly the next flush's batch,
so each is written once and none is lost.  An empty queue's flush issues no
batch write. -/
theorem flush_batch_exact (E : Type) (N T : Nat) (st : StorageState E)
    (during : List E) (hP : st.sqlite_buffer ≠ []) :
    (flushWithAdds N T st during).batches = st.batches ++ [st.sqlite_buffer] ∧
    (flushWithAdds N T st during).sqlite_buffer = during ∧
    (flush_sqlite_buffer (flushWithAdds N T st during)).batches
      = (if during.isEmpty then st.batches ++ [st.sqlite_buffer]
         else st.batches ++ [st.sqlite_buffer] ++ [during]) := by
  have hbe : st.sqlite_buffer.isEmpty = false := by
    cases hb : st.sqlite_buffer with
    | nil => exact absurd hb hP
    | cons a l => rfl
  have h1 : (flushWithAdds N T st during).batches
      = st.batches ++ [st.sqlite_buffer] := by
    simp [flushWithAdds, flushCapture, hbe, flushComplete, save_sensor_data_batch,
      foldl_add_batches]
  have h2 : (flushWithAdds N T st during).sqlite_buffer = during := by
    simp [flushWithAdds, flushCapture, hbe, flushComplete, foldl_add_buffer]
  refine ⟨h1, h2, ?_⟩
  cases hd : during.isEmpty with
  | true =>
      have hdn : during = [] := by
        cases during with
        | nil => rfl
        | cons a l => exact absurd hd (by simp)
      subst hdn
      simp only [List.isEmpty_nil, if_true, ite_true]
      simp [flush_sqlite_buffer, flushCapture, h2, flushComplete, h1]
  | false =>
      simp [flush_sqlite_buffer, flushCapture, h2, hd, flushComplete,
        save_sensor_data_batch, h1]

/-- C1 witness: queue `[1, 2]`, one concurrent add of `3` during the flush. -/
theorem flush_batch_exact_witness :
    (flushWithAdds 5 10 (StorageState.mk [1, 2] [1, 2] [] 0 : StorageState Nat)
        [3]).batches = [] ++ [[1, 2]] ∧
    (flushWithAdds 5 10 (StorageState.mk [1, 2] [1, 2] [] 0 : StorageState Nat)
        [3]).sqlite_buffer = [3] ∧
    (flush_sqlite_buffer (flushWithAdds 5 10
        (StorageState.mk [1, 2] [1, 2] [] 0 : StorageState Nat) [3])).batches
      = (if ([3] : List Nat).isEmpty then [] ++ [[1, 2]]
         else [] ++ [[1, 2]] ++ [[3]]) :=
  flush_batch_exact Nat 5 10 (StorageState.mk [1, 2] [1, 2] [] 0) [3] (by decide)

/-- C4 counterexample: startup schedules no periodic flush task (it only
initializes the database and prints a banner), and with the threshold at 10,
three adds spawn no flush task and write no batch — so a flush never occurs
when the event rate stays below the threshold, contradicting the claimed
timer-driven flush. -/
theorem no_periodic_flush_counterexample :
    startup_event = [StartupAction.initDb, StartupAction.printBanner] ∧
    StartupAction.spawnPeriodicFlush ∉ startup_event ∧
    ([10, 20, 30].foldl (add_sensor_data 100 10)
        (emptyStorage Nat)).flushTasksSpawned = 0 ∧
    ([10, 20, 30].foldl (add_sensor_data 100 10) (emptyStorage Nat)).batches = [] := by
  decide

/-- C4 (amended): there is no periodic flush timer; `flush_sqlite_buffer` is
triggered only by the size threshold inside `add_sensor_data`, so an event
sequence that stays below the threshold spawns no flush task, writes no
batch, and leaves all its events sitting in the pending queue. -/
theorem flush_only_threshold (E : Type) (N T : Nat) (es : List E)
    (h : es.length < T) :
    (es.foldl (add_sensor_data N T) (emptyStorage E)).flushTasksSpawned = 0 ∧
    (es.foldl (add_sensor_data N T) (emptyStorage E)).batches = [] ∧
    (es.foldl (add_sensor_data N T) (emptyStorage E)).sqlite_buffer = es := by
  refine ⟨?_, ?_, ?_⟩
  · have ht := foldl_add_tasks_below N T es (emptyStorage E)
      (by simp [emptyStorage]; omega)
    simpa [emptyStorage] using ht
  · simp [foldl_add_batches, emptyStorage]
  · simp [foldl_add_buffer, emptyStorage]

/-- C4 witness: three adds under threshold 10. -/
theorem flush_only_threshold_witness :
    ([1, 2, 3].foldl (add_sensor_data 100 10)
        (emptyStorage Nat)).flushTasksSpawned = 0 ∧
    ([1, 2, 3].foldl (add_sensor_data 100 10) (emptyStorage Nat)).batches = [] ∧
    ([1, 2, 3].foldl (add_sensor_data 100 10) (emptyStorage Nat)).sqlite_buffer
      = [1, 2, 3] :=
  flush_only_threshold Nat 100 10 [1, 2, 3] (by decide)

/-- C2 counterexample: on the legacy audio-only channel, a 3-byte binary
frame is still handed to the forwarder and delivered to the registered
device — the under-8-bytes guard there only gates the dashboard summary. -/
theorem short_frame_forwarded_counterexample :
    (handleBinaryMicrophone (some ⟨0⟩) (fun _ _ => true) [1, 2, 3] 1).forwardCalled
      = true ∧
    (handleBinaryMicrophone (some ⟨0⟩) (fun _ _ => true) [1, 2, 3] 1).attempts
      = [(⟨0⟩, [1, 2, 3])] ∧
    ([1, 2, 3] : List Nat).length < 8 := by
  exact ⟨rfl, rfl, by decide⟩

/-- C2 (amended): binary frames shorter than 8 bytes are dropped without
forwarding on the combined channel only; the legacy audio-only channel calls
the forwarder on every binary frame regardless of length — reaching a
registered device — and merely skips the dashboard summary for short
frames. -/
theorem short_binary_frames (device : Option Conn) (ok : Conn → List Nat → Bool)
    (b : List Nat) (count : Nat) (h : b.length < 8) :
    handleBinaryArduino device ok b
      = { forwardCalled := false, attempts := [], stored := none } ∧
    (handleBinaryMicrophone device ok b count).forwardCalled = true ∧
    (handleBinaryMicrophone device ok b count).attempts
      = (send_binary_to_arduino device ok b).2 ∧
    (handleBinaryMicrophone device ok b count).stored = none := by
  have h8 : ¬ (8 ≤ b.length) := by omega
  unfold handleBinaryArduino handleBinaryMicrophone
  simp [h8]

/-- C2 witness: a 1-byte frame with a registered device on both endpoints. -/
theorem short_binary_frames_witness :
    handleBinaryArduino (some ⟨1⟩) (fun _ _ => true) [9]
      = { forwardCalled := false, attempts := [], stored := none } ∧
    (handleBinaryMicrophone (some ⟨1⟩) (fun _ _ => true) [9] 4).forwardCalled = true ∧
    (handleBinaryMicrophone (some ⟨1⟩) (fun _ _ => true) [9] 4).attempts
      = (send_binary_to_arduino (some ⟨1⟩) (fun _ _ => true) [9]).2 ∧
    (handleBinaryMicrophone (some ⟨1⟩) (fun _ _ => true) [9] 4).stored = none :=
  short_binary_frames (some ⟨1⟩) (fun _ _ => true) [9] 4 (by decide)

/-- C3 counterexample: a first text frame carrying only a `request` field set
to `audio_data` is valid JSON with no `source` field, so the claim classifies
it as Device and registers it; the code instead consumes it in the
audio-data-request branch before any classification — the connection stays
unclassified and the registry is untouched. -/
theorem audio_request_skips_classification :
    (handleTextArduino ⟨7⟩ "ts" "cl"
        (some (Json.obj [("request", Json.str "audio_data")])) none none).outcome
      = TextOutcome.requestHandled ∧
    (handleTextArduino ⟨7⟩ "ts" "cl"
        (some (Json.obj [("request", Json.str "audio_data")])) none
        none).is_arduino_connection = none ∧
    (handleTextArduino ⟨7⟩ "ts" "cl"
        (some (Json.obj [("request", Json.str "audio_data")])) none
        none).arduino_connection = none ∧
    lookupField [("request", Json.str "audio_data")] "source" = none :=
  ⟨rfl, rfl, rfl, rfl⟩

/-- C3 (amended): for an unclassified connection on the combined channel
whose first text frame is a JSON object that is not an audio-data request
(`request` field not equal to the string `audio_data`): an absent `source`
field, or any `source` value other than the string `laptop_microphone`,
classifies the connection as Device and registers it; a `source` equal to
`laptop_microphone` classifies it as AudioSource and leaves the device
registration unchanged. -/
theorem first_frame_classification (self : Conn) (ts client : String)
    (fields : List (String × Json)) (reg : Option Conn)
    (hreq : optEqStr (lookupField fields "request") "audio_data" = false) :
    match lookupField fields "source" with
    | some src =>
        if src.eqStr "laptop_microphone" then
          (handleTextArduino self ts client (some (Json.obj fields)) none
              reg).is_arduino_connection = some false ∧
          (handleTextArduino self ts client (some (Json.obj fields)) none
              reg).arduino_connection = reg
        else
          (handleTextArduino self ts client (some (Json.obj fields)) none
              reg).is_arduino_connection = some true ∧
          (handleTextArduino self ts client (some (Json.obj fields)) none
              reg).arduino_connection = some self
    | none =>
        (handleTextArduino self ts client (some (Json.obj fields)) none
            reg).is_arduino_connection = some true ∧
        (handleTextArduino self ts client (some (Json.obj fields)) none
            reg).arduino_connection = some self := by
  have hs2 : lookupField
      (setField (setField fields "timestamp" (Json.str ts)) "client" (Json.str client))
      "source" = lookupField fields "source" := by
    rw [lookupField_setField_ne _ _ _ _ (by decide),
      lookupField_setField_ne _ _ _ _ (by decide)]
  cases hsrc : lookupField fields "source" with
  | none =>
      simp [handleTextArduino, pyGet, hreq, hs2, hsrc]
  | some src =>
      cases hlap : src.eqStr "laptop_microphone" with
      | true => simp [handleTextArduino, pyGet, hreq, hs2, hsrc, hlap]
      | false => simp [handleTextArduino, pyGet, hreq, hs2, hsrc, hlap]

/-- C3 witness: a first frame with only a `temperature` field — no `source`,
no `request` — classifies the connection as the device and registers it. -/
theorem first_frame_classification_witness :
    (handleTextArduino ⟨7⟩ "ts" "cl"
        (some (Json.obj [("temperature", Json.num 21)])) none
        none).is_arduino_connection = some true ∧
    (handleTextArduino ⟨7⟩ "ts" "cl"
        (some (Json.obj [("temperature", Json.num 21)])) none
        none).arduino_connection = some ⟨7⟩ :=
  first_frame_classification ⟨7⟩ "ts" "cl" [("temperature", Json.num 21)] none rfl

/-- C8 counterexample: with dashboards 0 and 1 registered and a concurrent
add of dashboard 2 arriving at the first send's suspension point, the
live-set iteration raises RuntimeError after only the first send — the
concurrent mutation does corrupt the in-progress iteration, which a snapshot
taken before the sends would have made impossible (without the mutation the
same broadcast completes both sends). -/
theorem broadcast_concurrent_add_counterexample :
    broadcast_to_dashboards [⟨0⟩, ⟨1⟩] (fun _ => true) [[SetMutation.add ⟨2⟩]]
      = BroadcastResult.iterRuntimeError [⟨0⟩] ∧
    broadcast_to_dashboards [⟨0⟩, ⟨1⟩] (fun _ => true) []
      = BroadcastResult.completed [⟨0⟩, ⟨1⟩] [⟨0⟩, ⟨1⟩] := by
  exact ⟨rfl, rfl⟩

/-- C8 (amended): `broadcast_to_dashboards` iterates the live dashboard set
directly, without snapshotting it.  With no concurrent mutation every
registered dashboard receives the send and no error occurs; but a concurrent
add of a new connection at the first send's suspension point changes the set
size, and the iteration raises RuntimeError at its next step, abandoning the
remaining sends. -/
theorem broadcast_live_set (l : List Conn) (sendOk : Conn → Bool)
    (c0 c : Conn) (rest : List Conn) (hc : c ∉ c0 :: rest) :
    sentList (broadcast_to_dashboards l sendOk []) = l ∧
    isIterError (broadcast_to_dashboards l sendOk []) = false ∧
    broadcast_to_dashboards (c0 :: rest) sendOk [[SetMutation.add c]]
      = BroadcastResult.iterRuntimeError [c0] := by
  refine ⟨?_, ?_, ?_⟩
  · have hs := (broadcastLoop_no_mutation sendOk l.length l l [] [] rfl).1
    simpa [broadcast_to_dashboards] using hs
  · exact (broadcastLoop_no_mutation sendOk l.length l l [] [] rfl).2
  · have hadd : applyMutations (c0 :: rest) [SetMutation.add c]
        = (c0 :: rest) ++ [c] := by
      simp [applyMutations, applyMutation, hc]
    have hstep : broadcastLoop sendOk (c0 :: rest).length rest ((c0 :: rest) ++ [c])
        [] [c0] (if sendOk c0 then [] else [] ++ [c0])
        = BroadcastResult.iterRuntimeError [c0] := by
      rw [broadcastLoop.eq_def]
      dsimp only
      have hne : ((c0 :: rest) ++ [c]).length ≠ (c0 :: rest).length := by simp
      rw [if_pos hne]
    rw [broadcast_to_dashboards, broadcastLoop]
    have heq : ¬ ((c0 :: rest).length ≠ (c0 :: rest).length) := by simp
    rw [if_neg heq]
    simpa [hadd] using hstep

/-- C8 witness: dashboards 0 and 1, a fresh connection 2 added concurrently. -/
theorem broadcast_live_set_witness :
    sentList (broadcast_to_dashboards [⟨0⟩, ⟨1⟩] (fun _ => true) []) = [⟨0⟩, ⟨1⟩] ∧
    isIterError (broadcast_to_dashboards [⟨0⟩, ⟨1⟩] (fun _ => true) []) = false ∧
    broadcast_to_dashboards (⟨0⟩ :: [⟨1⟩]) (fun _ => true) [[SetMutation.add ⟨2⟩]]
      = BroadcastResult.iterRuntimeError [⟨0⟩] :=
  broadcast_live_set [⟨0⟩, ⟨1⟩] (fun _ => true) ⟨0⟩ ⟨2⟩ [⟨1⟩] (by decide)

end AudioHub
